import Mathlib

/-!
Verification of the gmail-bridge sweep pipeline.

Strings of the JavaScript source are modelled as lists of characters
(`Str`).  Each definition below is a direct translation of the function or
expression of the source file it names in its doc comment; remote calls
(Gmail API, OpenAI completion) are modelled as oracles returning
`Except`, since any of them may fail.
-/

namespace GmailBridge

/-- JavaScript strings, modelled as lists of characters. -/
abbrev Str := List Char

/-- Coerce a Lean string literal to the `Str` model. -/
def strL (s : String) : Str := s.data

/-- JS `s.toLowerCase()` (ASCII case mapping). -/
def lowerStr (s : Str) : Str := s.map Char.toLower

/-- JS `s.startsWith(p)`: `startsWithStr s p` is true when `p` is an initial
segment of `s`. -/
def startsWithStr : Str → Str → Bool
  | _, [] => true
  | [], _ :: _ => false
  | c :: s, p :: ps => c == p && startsWithStr s ps

/-- JS `a || b` on strings: the empty string is falsy. -/
def jsOrStr (a b : Str) : Str := if a = [] then b else a

/-- Characters removed by JS `String.prototype.trim`. -/
def isJsWhitespace (c : Char) : Bool :=
  c == ' ' || c == '\t' || c == '\n' || c == '\r' || c == '\x0b' || c == '\x0c'

/-- JS `s.trim()`: strip leading and trailing whitespace. -/
def jsTrim (s : Str) : Str :=
  ((s.dropWhile isJsWhitespace).reverse.dropWhile isJsWhitespace).reverse

/-- `headerValue(headers, name)` from app.js line 50 / part_000 line 50:
case-insensitive lookup of the first header with the given name, returning
the empty string when the header is absent. -/
def headerValue (hs : List (Str × Str)) (name : Str) : Str :=
  match hs.find? (fun p => lowerStr p.1 == lowerStr name) with
  | some p => p.2
  | none => []

/-- `replySubject` from part_000 line 220 / app.js line 202:
`subject.toLowerCase().startsWith("re:") ? subject : "Re: " + subject`. -/
def replySubject (subject : Str) : Str :=
  if startsWithStr (lowerStr subject) (strL "re:") then subject
  else strL "Re: " ++ subject

/-- The effective `maxResults` limit from part_000 lines 143 and 267 /
app.js lines 126 and 246: `Math.min(parsedMax, 25)` applied to the parsed
caller-supplied value.  There is no lower bound in the source. -/
def effectiveMax (n : Int) : Int := min n 25

/-- The `refs` expression from part_000 line 230 / app.js line 213:
`refsHeader ? refsHeader + " " + msgIdHeader : msgIdHeader`. -/
def refsValue (refsHeader msgId : Str) : Str :=
  if refsHeader = [] then msgId else refsHeader ++ strL " " ++ msgId

/-- The metadata of an original message as fetched with `format: "metadata"`:
its payload headers and its provider thread id. -/
structure MetaMsg where
  headers : List (Str × Str)
  threadId : Str
deriving DecidableEq

/-- The `toAddr` expression from part_000 line 216 / app.js line 198:
`replyTo || from` over the extracted header values. -/
def toAddrOf (hs : List (Str × Str)) : Str :=
  jsOrStr (headerValue hs (strL "Reply-To")) (headerValue hs (strL "From"))

/-- The `replyHeaders` array built in part_000 lines 222-232 / app.js
lines 205-215: the four base headers, plus `In-Reply-To` and `References`
exactly when the original's `Message-ID` header value is truthy. -/
def replyHeadersOf (meta : MetaMsg) : List Str :=
  let hs := meta.headers
  let msgId := headerValue hs (strL "Message-ID")
  [strL "To: " ++ toAddrOf hs,
   strL "Subject: " ++ replySubject (headerValue hs (strL "Subject")),
   strL "MIME-Version: 1.0",
   strL "Content-Type: text/plain; charset=\"UTF-8\""]
  ++ (if msgId = [] then []
      else [strL "In-Reply-To: " ++ msgId,
            strL "References: " ++ refsValue (headerValue hs (strL "References")) msgId])

/-- `rawMessage` from part_000 line 234 / app.js line 217:
`replyHeaders.join("\r\n") + "\r\n\r\n" + body + "\r\n"`. -/
def rawMessageOf (meta : MetaMsg) (body : Str) : Str :=
  List.intercalate (strL "\r\n") (replyHeadersOf meta) ++ strL "\r\n\r\n" ++ body ++ strL "\r\n"

/-- UTF-8 encoding of one character (`Buffer.from(str)` uses UTF-8). -/
def utf8EncodeChar (c : Char) : List Nat :=
  let n := c.toNat
  if n < 0x80 then [n]
  else if n < 0x800 then [0xC0 + n / 0x40, 0x80 + n % 0x40]
  else if n < 0x10000 then
    [0xE0 + n / 0x1000, 0x80 + n / 0x40 % 0x40, 0x80 + n % 0x40]
  else
    [0xF0 + n / 0x40000, 0x80 + n / 0x1000 % 0x40, 0x80 + n / 0x40 % 0x40, 0x80 + n % 0x40]

/-- UTF-8 encoding of a string, as performed by `Buffer.from(str)`. -/
def utf8Encode (s : Str) : List Nat := (s.map utf8EncodeChar).flatten

/-- The standard base64 alphabet used by `Buffer.toString("base64")`. -/
def base64Alphabet : Str :=
  strL "ABCDEFGHIJKLMNOPQRSTUVWXYZabcdefghijklmnopqrstuvwxyz0123456789+/"

/-- The base64 digit for a 6-bit value. -/
def b64char (i : Nat) : Char := base64Alphabet.getD i 'A'

/-- Standard base64 encoding with `=` padding, as produced by
`Buffer.from(str).toString("base64")` on the UTF-8 bytes. -/
def base64Encode : List Nat → Str
  | [] => []
  | [b1] => [b64char (b1 / 4), b64char (b1 % 4 * 16), '=', '=']
  | [b1, b2] => [b64char (b1 / 4), b64char (b1 % 4 * 16 + b2 / 16), b64char (b2 % 16 * 4), '=']
  | b1 :: b2 :: b3 :: rest =>
    [b64char (b1 / 4), b64char (b1 % 4 * 16 + b2 / 16),
     b64char (b2 % 16 * 4 + b3 / 64), b64char (b3 % 64)]
    ++ base64Encode rest

/-- The `.replace(/\+/g, "-").replace(/\//g, "_")` step of
`base64UrlEncode` (part_000 lines 45-46 / app.js lines 41-42). -/
def urlSafeChar (c : Char) : Char :=
  if c = '+' then '-' else if c = '/' then '_' else c

/-- The `.replace(/=+$/g, "")` step of `base64UrlEncode`
(part_000 line 47 / app.js line 43): strip all trailing `=`. -/
def stripTrailingEq (s : Str) : Str :=
  (s.reverse.dropWhile (fun c => c == '=')).reverse

/-- `base64UrlEncode` from part_000 lines 42-48 / app.js lines 38-44,
applied to the UTF-8 bytes of the input. -/
def base64UrlEncode (bytes : List Nat) : Str :=
  stripTrailingEq ((base64Encode bytes).map urlSafeChar)

/-- The argument of the `gmail.users.drafts.create` call in the reply
path (part_000 lines 237-245 and 383-386 / app.js lines 220-228):
the encoded raw message and the original's thread id. -/
structure DraftReq where
  raw : Str
  threadId : Str
deriving DecidableEq

/-- The reply-composition pipeline of part_000 lines 210-245 (duplicated at
lines 358-386 inside the sweep): from the original's metadata and the reply
body to the draft-create request. -/
def composeReply (meta : MetaMsg) (body : Str) : DraftReq :=
  { raw := base64UrlEncode (utf8Encode (rawMessageOf meta body))
    threadId := meta.threadId }

/-- The full-format fetch of a candidate (part_000 line 305): the snippet
and the payload headers the prompt is built from. -/
structure FullMsg where
  snippet : Str
  headers : List (Str × Str)
deriving DecidableEq

/-- The externally visible per-message side effects of a sweep: a draft
was created in the candidate's thread, or the processed-marker label was
applied to the candidate. -/
inductive Effect where
  | draftCreated (msgId : Str)
  | labeled (msgId : Str)
deriving DecidableEq

/-- The remote calls the sweep handler performs, each of which may fail
(part_000 lines 280-393).  `complete` is the OpenAI responses call, given
the prompt and returning the extracted output text (the JSON extraction
`aiJson.output ... || aiJson.output_text || ""` is collapsed into the
oracle's answer). -/
structure Gmail where
  search : Except Str (List Str)
  labelsList : Except Str (List (Str × Str))
  labelsCreate : Except Str Str
  getFull : Str → Except Str FullMsg
  complete : Str → Except Str Str
  getMeta : Str → Except Str MetaMsg
  createDraft : DraftReq → Except Str Str
  modifyAddLabel : Str → Str → Except Str Unit

/-- The prompt template of part_000 lines 312-327 / app.js lines 283-298. -/
def buildPrompt (fromA subject snippet : Str) : Str :=
  strL "\nYou are Nathan\x27s email assistant. Draft a reply only if a reply is needed.\nIf not needed, output exactly: NO_REPLY\n\nEmail:\nFrom: "
  ++ fromA
  ++ strL "\nSubject: " ++ subject
  ++ strL "\nSnippet: " ++ snippet
  ++ strL "\n\nReply rules:\n- Be concise, professional, helpful.\n- If it\x27s unclear, ask 1 clarifying question.\n- Never mention AI.\n- Do not promise anything untrue.\n- End with a simple signature: \"— Nathan\"\n"

/-- The decision parsing of part_000 lines 347-348 / app.js lines 318-320:
`const replyText = (text || "").trim(); if (!replyText || replyText ===
"NO_REPLY") continue;` — `none` means the candidate is skipped, `some rt`
means `rt` is the reply text used for the draft. -/
def parseDecision (text : Str) : Option Str :=
  let replyText := jsTrim text
  if replyText = [] then none
  else if replyText = strL "NO_REPLY" then none
  else some replyText

/-- The draft-and-mark phase for one candidate (part_000 lines 350-395):
fetch the original's metadata, compose, create the draft, then apply the
processed-marker label.  Returns the handler's outcome for the candidate
together with the effects actually performed; a failed step surfaces as
`Except.error`, keeping the effects performed before it. -/
def draftPhase (g : Gmail) (labelId id replyText : Str) :
    Except Str (Option (Str × Str)) × List Effect :=
  match g.getMeta id with
  | .error e => (.error e, [])
  | .ok meta =>
    match g.createDraft (composeReply meta replyText) with
    | .error e => (.error e, [])
    | .ok draftId =>
      match g.modifyAddLabel id labelId with
      | .error e => (.error e, [.draftCreated id])
      | .ok _ => (.ok (some (id, draftId)), [.draftCreated id, .labeled id])

/-- One iteration of the sweep's `for` loop (part_000 lines 303-396):
full fetch, decision call, parsing, then the draft phase.  `.ok none`
is the `continue` of a skipped candidate; `.error` is an exception that
escapes into the handler's outer `catch`. -/
def processOne (g : Gmail) (labelId id : Str) :
    Except Str (Option (Str × Str)) × List Effect :=
  match g.getFull id with
  | .error e => (.error e, [])
  | .ok full =>
    match g.complete (buildPrompt (headerValue full.headers (strL "From"))
        (headerValue full.headers (strL "Subject")) full.snippet) with
    | .error e => (.error e, [])
    | .ok text =>
      match parseDecision text with
      | none => (.ok none, [])
      | some rt => draftPhase g labelId id rt

/-- The sweep's `for` loop over the candidate ids (part_000 lines 301-396).
The loop body has no try/catch of its own, so the first `Except.error`
aborts the remaining iterations; successful candidates accumulate into the
`drafted` array. -/
def sweepLoop (g : Gmail) (labelId : Str) : List Str → Except Str (List (Str × Str)) × List Effect
  | [] => (.ok [], [])
  | id :: rest =>
    match processOne g labelId id with
    | (.error e, effs) => (.error e, effs)
    | (.ok none, effs) =>
      let r := sweepLoop g labelId rest
      (r.1, effs ++ r.2)
    | (.ok (some pair), effs) =>
      let r := sweepLoop g labelId rest
      (match r.1 with
       | .error e => .error e
       | .ok l => .ok (pair :: l), effs ++ r.2)

/-- The get-or-create of the `AI-Drafted` label (part_000 lines 283-299):
list the labels, reuse the existing id, else create the label. -/
def resolveLabel (g : Gmail) : Except Str Str :=
  match g.labelsList with
  | .error e => .error e
  | .ok labels =>
    match labels.find? (fun p => p.1 == strL "AI-Drafted") with
    | some p => .ok p.2
    | none => g.labelsCreate

/-- The in-memory token state checked by `requireAuthed`
(part_000 lines 26-39). -/
structure Tokens where
  refreshToken : Str
deriving DecidableEq

/-- The configuration and request data the sweep handler consults before
touching any candidate. -/
structure Env where
  savedTokens : Option Tokens
  sweepSecret : Option Str
  openaiKey : Option Str
  authHeader : Str

/-- `requireAuthed` (part_000 lines 33-39): rejects when `savedTokens` is
null or carries no refresh token. -/
def authedB (env : Env) : Bool :=
  match env.savedTokens with
  | none => false
  | some t => !(t.refreshToken == [])

/-- The shared-secret check of part_000 lines 257-262: `!SWEEP_SECRET ||
auth !== "Bearer " + SWEEP_SECRET` rejects (an unset or empty secret is
falsy). -/
def secretOkB (env : Env) : Bool :=
  match env.sweepSecret with
  | none => false
  | some s => !(s == []) && env.authHeader == (strL "Bearer " ++ s)

/-- The `!OPENAI_API_KEY` check of part_000 lines 263-265. -/
def keyPresentB (env : Env) : Bool :=
  match env.openaiKey with
  | none => false
  | some k => !(k == [])

/-- The HTTP responses the `/run-sweep` handler can produce. -/
inductive SweepResponse where
  | notAuthed
  | unauthorized
  | missingKey
  | fatal (e : Str)
  | ok (drafted : List (Str × Str))
deriving DecidableEq

/-- The `/run-sweep` handler of part_000 lines 255-403: auth middleware,
secret and key checks, candidate search, label get-or-create, then the
per-candidate loop.  Any `Except.error` of a remote call reaches the
handler's single outer `catch` and yields the fatal `Sweep failed`
response; the effect list records the drafts created and labels applied
before the handler returned. -/
def runSweep (env : Env) (g : Gmail) : SweepResponse × List Effect :=
  if !authedB env then (.notAuthed, [])
  else if !secretOkB env then (.unauthorized, [])
  else if !keyPresentB env then (.missingKey, [])
  else
    match g.search with
    | .error e => (.fatal e, [])
    | .ok ids =>
      match resolveLabel g with
      | .error e => (.fatal e, [])
      | .ok labelId =>
        match sweepLoop g labelId ids with
        | (.error e, effs) => (.fatal e, effs)
        | (.ok drafted, effs) => (.ok drafted, effs)

/-- The query terms joined with `" "` in part_000 lines 271-278 (the
`/run-sweep` candidate query; identical to part_000's `/unread-primary`
query at lines 146-153). -/
def sweepQueryTerms : List Str :=
  [strL "is:unread",
   strL "category:primary",
   strL "-label:AI-Drafted",
   strL "-from:noreply",
   strL "-from:no-reply",
   strL "-subject:(receipt OR invoice OR confirmation OR unsubscribe)"]

/-- The query terms joined with `" "` in app.js lines 129-135 (the
`/unread-primary` query that app.js's `/run-sweep` fetches its candidates
from). -/
def appJsQueryTerms : List Str :=
  [strL "is:unread",
   strL "category:primary",
   strL "-from:noreply",
   strL "-from:no-reply",
   strL "-subject:(receipt OR invoice OR confirmation OR unsubscribe)"]

/-- The `q` string of part_000 line 271-278: `terms.join(" ")`. -/
def sweepQuery : Str := List.intercalate (strL " ") sweepQueryTerms

/-- The `q` string of app.js lines 129-135: `terms.join(" ")`. -/
def unreadPrimaryQueryAppJs : Str := List.intercalate (strL " ") appJsQueryTerms

/-- A mailbox message as the provider search sees it: unread flag,
category, applied labels, sender and subject. -/
structure MBoxMsg where
  id : Str
  unread : Bool
  primary : Bool
  labels : List Str
  fromAddr : Str
  subject : Str
deriving DecidableEq

/-- Whether `needle` occurs somewhere inside `hay`. -/
def containsSub (hay needle : Str) : Bool :=
  match hay with
  | [] => needle == []
  | _ :: rest => startsWithStr hay needle || containsSub rest needle

/-- Modelled from the spec: the Mail Gateway's `search(query, max)`
contract (spec section 6) for the term shapes the two candidate queries
use — a message matches `is:unread` when unread, `category:primary` when
primary, `-label:L` when it does not carry label `L`, `-from:S` when its
sender does not contain `S`, and the junk-subject term when its subject
contains none of the four keywords. -/
def evalTerm (m : MBoxMsg) (t : Str) : Bool :=
  if t = strL "is:unread" then m.unread
  else if t = strL "category:primary" then m.primary
  else if startsWithStr t (strL "-label:") then !(m.labels.contains (t.drop 7))
  else if startsWithStr t (strL "-from:") then !(containsSub (lowerStr m.fromAddr) (t.drop 6))
  else if t = strL "-subject:(receipt OR invoice OR confirmation OR unsubscribe)" then
    !(containsSub (lowerStr m.subject) (strL "receipt")
      || containsSub (lowerStr m.subject) (strL "invoice")
      || containsSub (lowerStr m.subject) (strL "confirmation")
      || containsSub (lowerStr m.subject) (strL "unsubscribe"))
  else true

/-- Modelled from the spec: a message is returned by the provider search
exactly when it matches every term of the query. -/
def searchMatches (terms : List Str) (m : MBoxMsg) : Bool := terms.all (evalTerm m)

/-- Modelled from the spec: the provider search returns the mailbox
messages matching the query. -/
def gmailSearch (terms : List Str) (mbox : List MBoxMsg) : List MBoxMsg :=
  mbox.filter (searchMatches terms)

/-- Whether the character `c` occurs in `s`. -/
def hasChar (s : Str) (c : Char) : Bool := s.any (fun d => d == c)

/-- Whether `s` does not end in `=`. -/
def noTrailingEq (s : Str) : Bool :=
  match s.getLast? with
  | none => true
  | some c => !(c == '=')

/-- Specification-side notion of header presence: the spec's composer rule
for the destination address speaks of the `Reply-To` header being
*present*, which is the existence of an entry with that name, independent
of its value. -/
def headerPresent (hs : List (Str × Str)) (name : Str) : Bool :=
  (hs.find? (fun p => lowerStr p.1 == lowerStr name)).isSome

/-! Concrete instances used by the counterexamples and witnesses below. -/

/-- An environment where auth, the sweep secret, and the OpenAI key are
all configured correctly. -/
def envOk : Env :=
  { savedTokens := some ⟨strL "refresh-token"⟩
    sweepSecret := some (strL "s3cret")
    openaiKey := some (strL "sk-test")
    authHeader := strL "Bearer s3cret" }

/-- An environment without any saved tokens. -/
def envNoAuth : Env :=
  { savedTokens := none
    sweepSecret := some (strL "s3cret")
    openaiKey := some (strL "sk-test")
    authHeader := strL "Bearer s3cret" }

/-- An environment with auth and secret configured but no OpenAI key. -/
def envNoKey : Env :=
  { savedTokens := some ⟨strL "refresh-token"⟩
    sweepSecret := some (strL "s3cret")
    openaiKey := none
    authHeader := strL "Bearer s3cret" }

/-- A full-format candidate message. -/
def fullC1 : FullMsg :=
  { snippet := strL "Can we meet tomorrow?"
    headers := [(strL "From", strL "alice@example.com"), (strL "Subject", strL "hello")] }

/-- Metadata for the candidate with id `i`: thread id `i ++ "-thread"`. -/
def metaFor (i : Str) : MetaMsg :=
  { headers := [(strL "From", strL "alice@example.com"),
                (strL "Subject", strL "hello"),
                (strL "Message-ID", strL "<abc@mail>")]
    threadId := i ++ strL "-thread" }

/-- A Gmail oracle with two candidates `m1`, `m2` whose decision calls both
return reply text, and whose draft-create call fails exactly for `m1`
(the draft request in thread `m1-thread`). -/
def gDraftFail : Gmail :=
  { search := .ok [strL "m1", strL "m2"]
    labelsList := .ok [(strL "AI-Drafted", strL "Label_7")]
    labelsCreate := .error (strL "labels.create not called")
    getFull := fun _ => .ok fullC1
    complete := fun _ => .ok (strL "Sure, happy to help.")
    getMeta := fun i => .ok (metaFor i)
    createDraft := fun req =>
      if req.threadId = strL "m1-thread" then .error (strL "draft-create failed")
      else .ok (strL "d2")
    modifyAddLabel := fun _ _ => .ok () }

/-- An unread, primary-category mailbox message that already carries the
`AI-Drafted` processed-marker label. -/
def processedMsg : MBoxMsg :=
  { id := strL "m1"
    unread := true
    primary := true
    labels := [strL "AI-Drafted"]
    fromAddr := strL "alice@example.com"
    subject := strL "hello" }

/-! Helper lemmas shared by the claim theorems. -/

theorem lowerStr_append (a b : Str) : lowerStr (a ++ b) = lowerStr a ++ lowerStr b :=
  List.map_append _ a b

theorem hasChar_eq_true_iff_mem (s : Str) (c : Char) : hasChar s c = true ↔ c ∈ s := by
  simp [hasChar, List.any_eq_true, beq_iff_eq]

theorem hasChar_eq_false_iff (s : Str) (c : Char) : hasChar s c = false ↔ c ∉ s := by
  rw [← Bool.not_eq_true, hasChar_eq_true_iff_mem]

theorem stripTrailingEq_subset (s : Str) : ∀ x ∈ stripTrailingEq s, x ∈ s := by
  intro x hx
  unfold stripTrailingEq at hx
  rw [List.mem_reverse] at hx
  exact List.mem_reverse.mp ((List.dropWhile_sublist _).subset hx)

theorem urlSafeChar_ne_plus (c : Char) : (urlSafeChar c == '+') = false := by
  unfold urlSafeChar
  split_ifs with h1 h2
  · decide
  · decide
  · rw [beq_eq_false_iff_ne]; exact h1

theorem urlSafeChar_ne_slash (c : Char) : (urlSafeChar c == '/') = false := by
  unfold urlSafeChar
  split_ifs with h1 h2
  · decide
  · decide
  · rw [beq_eq_false_iff_ne]; exact h2

theorem hasChar_map_urlSafe_plus (l : Str) : hasChar (l.map urlSafeChar) '+' = false := by
  induction l with
  | nil => rfl
  | cons a t ih =>
    simp only [hasChar, List.map_cons, List.any_cons, Bool.or_eq_false_iff]
    exact ⟨urlSafeChar_ne_plus a, ih⟩

theorem hasChar_map_urlSafe_slash (l : Str) : hasChar (l.map urlSafeChar) '/' = false := by
  induction l with
  | nil => rfl
  | cons a t ih =>
    simp only [hasChar, List.map_cons, List.any_cons, Bool.or_eq_false_iff]
    exact ⟨urlSafeChar_ne_slash a, ih⟩

theorem head_dropWhile_not (p : Char → Bool) (l : Str) :
    ∀ c, (l.dropWhile p).head? = some c → p c = false := by
  induction l with
  | nil => intro c h; simp [List.dropWhile] at h
  | cons a t ih =>
    intro c h
    by_cases hp : p a
    · rw [List.dropWhile_cons_of_pos hp] at h; exact ih c h
    · rw [List.dropWhile_cons_of_neg hp] at h
      simp only [List.head?_cons, Option.some.injEq] at h
      rw [← h]
      exact Bool.eq_false_iff.mpr hp

theorem noTrailingEq_strip (s : Str) : noTrailingEq (stripTrailingEq s) = true := by
  unfold stripTrailingEq noTrailingEq
  rw [List.getLast?_reverse]
  cases h : (s.reverse.dropWhile (fun c => c == '=')).head? with
  | none => rfl
  | some c =>
    have := head_dropWhile_not (fun c => c == '=') s.reverse c h
    simp [this]

/-! Claim theorems. -/

/-- Claim C10: for every input, the output of `base64UrlEncode` contains no
`+`, no `/`, and no trailing `=` character, so the raw RFC822 message handed
to the draft-create call is URL-safe base64 without padding. -/
theorem c10_base64UrlEncode_urlSafe (bytes : List Nat) :
    hasChar (base64UrlEncode bytes) '+' = false ∧
    hasChar (base64UrlEncode bytes) '/' = false ∧
    noTrailingEq (base64UrlEncode bytes) = true := by
  refine ⟨?_, ?_, noTrailingEq_strip _⟩
  · rw [hasChar_eq_false_iff]
    intro hmem
    have h2 := stripTrailingEq_subset _ _ hmem
    have h3 := hasChar_map_urlSafe_plus (base64Encode bytes)
    rw [hasChar_eq_false_iff] at h3
    exact h3 h2
  · rw [hasChar_eq_false_iff]
    intro hmem
    have h2 := stripTrailingEq_subset _ _ hmem
    have h3 := hasChar_map_urlSafe_slash (base64Encode bytes)
    rw [hasChar_eq_false_iff] at h3
    exact h3 h2

/-- Claim C3, counterexample: the caller value `0` lies outside `[1, 25]`,
yet the effective limit is `0` itself, not the clamped value `1` — there is
no lower clamp in `Math.min(parseInt(...), 25)`. -/
theorem c3_counterexample :
    effectiveMax 0 = 0 ∧ decide (1 ≤ effectiveMax 0) = false := by decide

/-- Claim C3, amended: caller values above 25 are capped to 25 and not
rejected, while every value of at most 25 — including values below 1 — is
passed through unchanged to the provider search. -/
theorem c3_amended_clamp (n : Int) :
    (25 < n → effectiveMax n = 25) ∧ (n ≤ 25 → effectiveMax n = n) := by
  constructor <;> intro h <;> simp only [effectiveMax] <;> omega

/-- Claim C3, witness for the amended theorem at the inputs 30 and 0. -/
theorem c3_witness : effectiveMax 30 = 25 ∧ effectiveMax 0 = 0 :=
  ⟨(c3_amended_clamp 30).1 (by decide), (c3_amended_clamp 0).2 (by decide)⟩

/-- Claim C5: the composed reply subject is the original subject unchanged
when the original already starts with `re:` case-insensitively, and the
original prefixed with `Re: ` otherwise; composing twice never doubles the
prefix. -/
theorem c5_replySubject (s : Str) :
    (startsWithStr (lowerStr s) (strL "re:") = true → replySubject s = s) ∧
    (startsWithStr (lowerStr s) (strL "re:") = false →
      replySubject s = strL "Re: " ++ s) ∧
    replySubject (replySubject s) = replySubject s := by
  refine ⟨fun h => ?_, fun h => ?_, ?_⟩
  · simp [replySubject, h]
  · simp [replySubject, h]
  · cases h : startsWithStr (lowerStr s) (strL "re:") with
    | true => simp [replySubject, h]
    | false =>
      have e1 : replySubject s = strL "Re: " ++ s := by simp [replySubject, h]
      have e0 : lowerStr (strL "Re: " ++ s) = strL "re: " ++ lowerStr s := by
        rw [lowerStr_append]; rfl
      have e2 : startsWithStr (lowerStr (strL "Re: " ++ s)) (strL "re:") = true := by
        rw [e0]; rfl
      rw [e1]
      simp [replySubject, e2]

/-- Claim C5, witness: a subject already carrying `RE:` is unchanged, and a
fresh subject receives one `Re: ` prefix. -/
theorem c5_witness :
    replySubject (strL "RE: hi") = strL "RE: hi" ∧
    replySubject (strL "hi") = strL "Re: " ++ strL "hi" :=
  ⟨(c5_replySubject (strL "RE: hi")).1 (by decide),
   (c5_replySubject (strL "hi")).2.1 (by decide)⟩

/-- Claim C8, counterexample: a message whose `Reply-To` header is present
but has an empty value is routed to the `From` address, not to the
`Reply-To` value, because the source tests truthiness of the extracted
value (`replyTo || from`), not presence of the header. -/
theorem c8_counterexample :
    headerPresent [(strL "Reply-To", []), (strL "From", strL "alice@example.com")]
      (strL "Reply-To") = true ∧
    headerValue [(strL "Reply-To", []), (strL "From", strL "alice@example.com")]
      (strL "Reply-To") = [] ∧
    toAddrOf [(strL "Reply-To", []), (strL "From", strL "alice@example.com")]
      = strL "alice@example.com" := by decide

/-- Claim C8, amended: the destination address equals the original's
`Reply-To` header value when that value is non-empty, and the `From` header
value otherwise. -/
theorem c8_amended_toAddr (hs : List (Str × Str)) :
    (headerValue hs (strL "Reply-To") ≠ [] →
      toAddrOf hs = headerValue hs (strL "Reply-To")) ∧
    (headerValue hs (strL "Reply-To") = [] →
      toAddrOf hs = headerValue hs (strL "From")) := by
  constructor <;> intro h <;> simp [toAddrOf, jsOrStr, h]

/-- Claim C8, witness: with a non-empty `Reply-To` the destination is the
`Reply-To` value. -/
theorem c8_witness :
    toAddrOf [(strL "Reply-To", strL "boss@example.com"),
              (strL "From", strL "alice@example.com")] = strL "boss@example.com" :=
  (c8_amended_toAddr [(strL "Reply-To", strL "boss@example.com"),
    (strL "From", strL "alice@example.com")]).1 (by decide)

/-- Claim C4: for every candidate, when the decision-engine output trims to
the empty string or to the sentinel `NO_REPLY`, the candidate is skipped
with no draft created and no effect performed; any other output makes the
loop proceed to the draft phase with exactly the trimmed text as the reply
body. -/
theorem c4_decision_parsing (g : Gmail) (labelId id : Str) (full : FullMsg) (text : Str)
    (hFull : g.getFull id = .ok full)
    (hText : g.complete (buildPrompt (headerValue full.headers (strL "From"))
      (headerValue full.headers (strL "Subject")) full.snippet) = .ok text) :
    ((jsTrim text = [] ∨ jsTrim text = strL "NO_REPLY") →
      processOne g labelId id = (.ok none, [])) ∧
    (jsTrim text ≠ [] → jsTrim text ≠ strL "NO_REPLY" →
      processOne g labelId id = draftPhase g labelId id (jsTrim text)) := by
  constructor
  · intro h
    have hp : parseDecision text = none := by
      rcases h with h | h <;> simp [parseDecision, h]
    simp [processOne, hFull, hText, hp]
  · intro h1 h2
    have hp : parseDecision text = some (jsTrim text) := by
      simp [parseDecision, h1, h2]
    simp [processOne, hFull, hText, hp]

/-- Claim C4, witness: an oracle answering `" NO_REPLY "` (sentinel after
trimming) makes the candidate a skip with no effects. -/
theorem c4_witness :
    processOne
      { gDraftFail with complete := fun _ => .ok (strL " NO_REPLY ") }
      (strL "Label_7") (strL "m1") = (.ok none, []) :=
  (c4_decision_parsing
    { gDraftFail with complete := fun _ => .ok (strL " NO_REPLY ") }
    (strL "Label_7") (strL "m1") fullC1 (strL " NO_REPLY ") rfl rfl).1
    (by decide)

/-- Claim C6: for an original message whose `Message-ID` header value is
absent (the empty extraction), the composed reply headers are exactly the
four base headers — no `In-Reply-To` and no `References` line — while the
draft-create request still carries the original's provider thread id. -/
theorem c6_no_messageId_no_threading (meta : MetaMsg) (body : Str)
    (h : headerValue meta.headers (strL "Message-ID") = []) :
    replyHeadersOf meta =
      [strL "To: " ++ toAddrOf meta.headers,
       strL "Subject: " ++ replySubject (headerValue meta.headers (strL "Subject")),
       strL "MIME-Version: 1.0",
       strL "Content-Type: text/plain; charset=\"UTF-8\""] ∧
    (∀ l ∈ replyHeadersOf meta,
      startsWithStr l (strL "In-Reply-To:") = false ∧
      startsWithStr l (strL "References:") = false) ∧
    (composeReply meta body).threadId = meta.threadId := by
  have e : replyHeadersOf meta =
      [strL "To: " ++ toAddrOf meta.headers,
       strL "Subject: " ++ replySubject (headerValue meta.headers (strL "Subject")),
       strL "MIME-Version: 1.0",
       strL "Content-Type: text/plain; charset=\"UTF-8\""] := by
    simp [replyHeadersOf, h]
  refine ⟨e, ?_, rfl⟩
  intro l hl
  rw [e] at hl
  simp only [List.mem_cons, List.not_mem_nil, or_false] at hl
  rcases hl with rfl | rfl | rfl | rfl
  · exact ⟨rfl, rfl⟩
  · exact ⟨rfl, rfl⟩
  · exact ⟨rfl, rfl⟩
  · exact ⟨rfl, rfl⟩

/-- Claim C6, witness: a concrete original without a `Message-ID` header
composes to the four base headers and keeps its thread id. -/
theorem c6_witness :
    replyHeadersOf
      { headers := [(strL "From", strL "alice@example.com"),
                    (strL "Subject", strL "hello")], threadId := strL "t9" } =
      [strL "To: " ++ toAddrOf [(strL "From", strL "alice@example.com"),
                                (strL "Subject", strL "hello")],
       strL "Subject: " ++ replySubject (headerValue
         [(strL "From", strL "alice@example.com"), (strL "Subject", strL "hello")]
         (strL "Subject")),
       strL "MIME-Version: 1.0",
       strL "Content-Type: text/plain; charset=\"UTF-8\""] ∧
    (composeReply
      { headers := [(strL "From", strL "alice@example.com"),
                    (strL "Subject", strL "hello")], threadId := strL "t9" }
      (strL "body")).threadId = strL "t9" := by
  have h := c6_no_messageId_no_threading
    { headers := [(strL "From", strL "alice@example.com"),
                  (strL "Subject", strL "hello")], threadId := strL "t9" }
    (strL "body") (by decide)
  exact ⟨h.1, h.2.2⟩

/-- Claim C7: when the original carries a `Message-ID` and a non-empty
`References` header, the composed `References` line is the original value,
exactly one space, then the `Message-ID`; with no original `References`
value, the composed value is the `Message-ID` alone. -/
theorem c7_references_append (meta : MetaMsg) (msgId refs : Str)
    (h1 : headerValue meta.headers (strL "Message-ID") = msgId)
    (h2 : msgId ≠ [])
    (h3 : headerValue meta.headers (strL "References") = refs) :
    (refs ≠ [] →
      strL "References: " ++ (refs ++ strL " " ++ msgId) ∈ replyHeadersOf meta) ∧
    (refs = [] → strL "References: " ++ msgId ∈ replyHeadersOf meta) := by
  constructor <;> intro h <;> simp [replyHeadersOf, h1, h2, h3, refsValue, h]

/-- Claim C7, witness: with `References: <r1@mail>` and
`Message-ID: <abc@mail>`, the composed line is
`References: <r1@mail> <abc@mail>`. -/
theorem c7_witness :
    strL "References: " ++ (strL "<r1@mail>" ++ strL " " ++ strL "<abc@mail>") ∈
      replyHeadersOf
        { headers := [(strL "Message-ID", strL "<abc@mail>"),
                      (strL "References", strL "<r1@mail>")], threadId := strL "t1" } :=
  (c7_references_append
    { headers := [(strL "Message-ID", strL "<abc@mail>"),
                  (strL "References", strL "<r1@mail>")], threadId := strL "t1" }
    (strL "<abc@mail>") (strL "<r1@mail>") (by decide) (by decide) (by decide)).1
    (by decide)

/-- Claim C9: without a usable refresh credential the sweep handler answers
the Unauthenticated error with no effect performed, and with credentials
and secret in order but no OpenAI key it answers the missing-configuration
error, again with no draft created and no message marked. -/
theorem c9_fail_fast (env : Env) (g : Gmail) :
    (authedB env = false → runSweep env g = (.notAuthed, [])) ∧
    (authedB env = true → secretOkB env = true → keyPresentB env = false →
      runSweep env g = (.missingKey, [])) := by
  constructor
  · intro h; simp [runSweep, h]
  · intro h1 h2 h3; simp [runSweep, h1, h2, h3]

/-- Claim C9, witness: the two failure modes at concrete environments, each
with an empty effect list. -/
theorem c9_witness :
    runSweep envNoAuth gDraftFail = (.notAuthed, []) ∧
    runSweep envNoKey gDraftFail = (.missingKey, []) :=
  ⟨(c9_fail_fast envNoAuth gDraftFail).1 (by decide),
   (c9_fail_fast envNoKey gDraftFail).2 (by decide) (by decide) (by decide)⟩

/-- Claim C2: the part_000 candidate query carries the
`-label:AI-Drafted` exclusion term and its search rejects a message
already holding the processed marker, but the app.js `/unread-primary`
query — the query app.js's `/run-sweep` takes its candidates from — lacks
that term, and under the provider search contract an unread primary
message already labeled `AI-Drafted` is returned as a candidate again. -/
theorem c2_processed_marker_exclusion :
    strL "-label:AI-Drafted" ∈ sweepQueryTerms ∧
    appJsQueryTerms.contains (strL "-label:AI-Drafted") = false ∧
    gmailSearch sweepQueryTerms [processedMsg] = [] ∧
    gmailSearch appJsQueryTerms [processedMsg] = [processedMsg] := by decide

/-- Claim C1, counterexample: a sweep over the two candidates `m1`, `m2`
where `m1`'s draft-create call fails does not return a result set of size
one — the failure escapes the loop into the handler's outer catch, the
whole sweep answers the fatal error, and `m2` is never processed (no
draft, no label for either candidate). -/
theorem c1_counterexample :
    runSweep envOk gDraftFail = (.fatal (strL "draft-create failed"), []) ∧
    decide ((runSweep envOk gDraftFail).1
      = SweepResponse.ok [(strL "m2", strL "d2")]) = false ∧
    (runSweep envOk gDraftFail).2.contains (Effect.labeled (strL "m2")) = false := by
  decide

/-- Claim C1, amended: after any successfully processed prefix of the
candidate list, a candidate whose draft-create call fails aborts the
entire sweep loop — the loop's outcome is the error (so the handler
answers the fatal response instead of a result set), the failing candidate
contributes no effect (in particular it is not marked processed), and the
candidates after it are not processed at all. -/
theorem c1_draft_failure_aborts_sweep {g : Gmail} {labelId e : Str}
    {pre : List Str} {prs : List (Str × Str)} {effs0 : List Effect}
    {id : Str} {rest : List Str} {full : FullMsg} {text rt : Str} {meta : MetaMsg}
    (hPre : sweepLoop g labelId pre = (.ok prs, effs0))
    (hFull : g.getFull id = .ok full)
    (hText : g.complete (buildPrompt (headerValue full.headers (strL "From"))
      (headerValue full.headers (strL "Subject")) full.snippet) = .ok text)
    (hDec : parseDecision text = some rt)
    (hMeta : g.getMeta id = .ok meta)
    (hDraft : g.createDraft (composeReply meta rt) = .error e) :
    sweepLoop g labelId (pre ++ id :: rest) = (.error e, effs0) := by
  have hP : processOne g labelId id = (.error e, []) := by
    simp [processOne, hFull, hText, hDec, draftPhase, hMeta, hDraft]
  have key : ∀ pre2 prs2 effs2, sweepLoop g labelId pre2 = (.ok prs2, effs2) →
      sweepLoop g labelId (pre2 ++ id :: rest) = (.error e, effs2) := by
    intro pre2
    induction pre2 with
    | nil =>
      intro prs2 effs2 hPre2
      simp only [sweepLoop, Prod.mk.injEq, Except.ok.injEq] at hPre2
      obtain ⟨_, rfl⟩ := hPre2
      simp [sweepLoop, hP]
    | cons p ps ih =>
      intro prs2 effs2 hPre2
      rw [List.cons_append]
      rcases hp : processOne g labelId p with ⟨r, effs⟩
      cases r with
      | error er => simp [sweepLoop, hp] at hPre2
      | ok o =>
        cases o with
        | none =>
          simp only [sweepLoop, hp, Prod.mk.injEq] at hPre2
          obtain ⟨h1, h2⟩ := hPre2
          have hps : sweepLoop g labelId ps = (.ok prs2, (sweepLoop g labelId ps).2) := by
            rw [← h1]
          have ihr := ih prs2 (sweepLoop g labelId ps).2 hps
          simp only [sweepLoop, hp]
          rw [ihr]
          simp [h2]
        | some pair =>
          simp only [sweepLoop, hp, Prod.mk.injEq] at hPre2
          obtain ⟨h1, h2⟩ := hPre2
          rcases hq : (sweepLoop g labelId ps).1 with er | l
          · rw [hq] at h1; simp at h1
          · rw [hq] at h1
            have hps : sweepLoop g labelId ps = (.ok l, (sweepLoop g labelId ps).2) := by
              rw [← hq]
            have ihr := ih l (sweepLoop g labelId ps).2 hps
            simp only [sweepLoop, hp]
            rw [ihr]
            simp [h2]
  exact key pre prs effs0 hPre

/-- Claim C1, witness: the amended theorem at the concrete failing sweep —
the loop over `[m1, m2]` with an empty successful prefix aborts with the
draft-create error and an empty effect list. -/
theorem c1_witness :
    sweepLoop gDraftFail (strL "Label_7") ([] ++ strL "m1" :: [strL "m2"]) =
      (.error (strL "draft-create failed"), []) :=
  c1_draft_failure_aborts_sweep
    (rfl : sweepLoop gDraftFail (strL "Label_7") [] = (.ok [], []))
    (rfl : gDraftFail.getFull (strL "m1") = .ok fullC1)
    (rfl : gDraftFail.complete (buildPrompt
      (headerValue fullC1.headers (strL "From"))
      (headerValue fullC1.headers (strL "Subject")) fullC1.snippet)
      = .ok (strL "Sure, happy to help."))
    (by decide :
      parseDecision (strL "Sure, happy to help.") = some (strL "Sure, happy to help."))
    (rfl : gDraftFail.getMeta (strL "m1") = .ok (metaFor (strL "m1")))
    (rfl :
      gDraftFail.createDraft
        (composeReply (metaFor (strL "m1")) (strL "Sure, happy to help."))
        = .error (strL "draft-create failed"))

end GmailBridge
